import Mathlib

/-!
# The webhook relay of `claude.go`

A shallow embedding of `src/claude.go`: the `WebhookPayload` struct, the start-up
part of `main` (environment checks, client construction, handler registration)
and the closure registered for `/webhook`.

Modelling conventions.

* A Go `string` is a sequence of bytes (`GoString`); Go's `==` / `!=` on strings
  is equality of those sequences.
* A non-nil Go `error` is a `GoError`; "`err == nil`" is `none`.
* The two client objects come from packages outside this repository
  (`go-synochat`, `anthropic`).  Each `SendMessage` is an arbitrary function of
  its arguments and of an abstract state of the outside world `σ`, which it may
  change.  `json.Unmarshal`, `os.Getenv` and the two client constructors are
  parameters as well.
* What the handler does to the outside is recorded, in program order, in a trace
  of `Event`s; what it writes to its `http.ResponseWriter` is the `w` component
  of the `Outcome`.
-/

namespace ClaudeRelay

/-! ## Go values -/

/-- A Go string: an immutable sequence of bytes. -/
abbrev GoString := List UInt8

/-- The bytes (UTF-8) of a string literal of the source text. -/
def goStr (s : String) : GoString := s.data.flatMap String.utf8EncodeChar

/-- A non-nil Go error value, reduced to the text of its message. -/
structure GoError where
  msg : GoString
deriving DecidableEq, Repr

/-! ## `net/http` constants and the response writer -/

/-- The constant http.MethodPost. -/
def MethodPost : GoString := goStr "POST"

/-- The constant http.StatusOK. -/
def StatusOK : Nat := 200
/-- The constant http.StatusBadRequest. -/
def StatusBadRequest : Nat := 400
/-- The constant http.StatusUnauthorized. -/
def StatusUnauthorized : Nat := 401
/-- The constant http.StatusMethodNotAllowed. -/
def StatusMethodNotAllowed : Nat := 405
/-- The constant http.StatusInternalServerError. -/
def StatusInternalServerError : Nat := 500

/-- The part of an `http.ResponseWriter` the handler can affect: the status line
(`none` until a header has been written) and the bytes of the body. Response
header fields are not modelled. -/
structure ResponseWriter where
  status : Option Nat
  body : GoString
deriving DecidableEq, Repr

/-- The writer the server hands to a handler: nothing written yet. -/
def ResponseWriter.fresh : ResponseWriter := { status := none, body := [] }

/-- The method `w.WriteHeader(code)`: the first call fixes the status, later calls are ignored. -/
def ResponseWriter.WriteHeader (w : ResponseWriter) (code : Nat) : ResponseWriter :=
  match w.status with
  | none => { w with status := some code }
  | some _ => w

/-- The method `w.Write(p)`: writes the header with 200 if none was written, then appends. -/
def ResponseWriter.Write (w : ResponseWriter) (p : GoString) : ResponseWriter :=
  let w1 := w.WriteHeader StatusOK
  { w1 with body := w1.body ++ p }

/-- The library call `http.Error(w, error, code)`: writes the header with `code`, then the
message followed by a newline. -/
def httpError (w : ResponseWriter) (error : GoString) (code : Nat) : ResponseWriter :=
  (w.WriteHeader code).Write (error ++ goStr "\n")

/-! ## The request -/

/-- The request body as the handler sees it: the result of `io.ReadAll(r.Body)`,
the bytes read and the error (if any). -/
structure ReadCloser where
  readAll : GoString × Option GoError
deriving DecidableEq, Repr

/-- The fields of `*http.Request` the handler reads. -/
structure Request where
  Method : GoString
  Body : ReadCloser
deriving DecidableEq, Repr

/-! ## The payload (`claude.go`, lines 15-25) -/

/-- The struct `WebhookPayload`. -/
structure WebhookPayload where
  Token : GoString
  ChannelID : GoString
  ChannelName : GoString
  UserID : GoString
  Username : GoString
  PostID : GoString
  Timestamp : GoString
  Text : GoString
  TriggerWord : GoString
deriving DecidableEq, Repr

/-- The zero value that `var payload WebhookPayload` declares. -/
def WebhookPayload.zero : WebhookPayload :=
  { Token := [], ChannelID := [], ChannelName := [], UserID := [], Username := [],
    PostID := [], Timestamp := [], Text := [], TriggerWord := [] }

/-! ## The external clients -/

/-- The message `synochat.ChatMessage` as the handler builds it: the composite
literal sets `Text` only. -/
structure ChatMessage where
  Text : GoString
deriving DecidableEq, Repr

/-- The AI completion client: `SendMessage(text)` returns `(reply, err)` and may
change the outside world. -/
structure AnthropicClient (σ : Type) where
  SendMessage : GoString → σ → (GoString × Option GoError) × σ

/-- The chat platform client: `SendMessage(msg, token)` returns `err` and may
change the outside world. -/
structure SynoClient (σ : Type) where
  SendMessage : ChatMessage → GoString → σ → Option GoError × σ

/-! ## Effects -/

/-- What the handler does besides writing its response: a call to one of the two
clients with its arguments, a `log.Printf` with the formatted message, or the
deferred `r.Body.Close()`. -/
inductive Event where
  | anthropicSendMessage (text : GoString)
  | synoSendMessage (msg : ChatMessage) (token : GoString)
  | logPrintf (line : GoString)
  | bodyClose
deriving DecidableEq, Repr

/-- The arguments of the calls to the AI completion client, in order. -/
def aiCalls : List Event → List GoString
  | [] => []
  | Event.anthropicSendMessage text :: es => text :: aiCalls es
  | _ :: es => aiCalls es

/-- The arguments of the calls to the chat platform client, in order. -/
def chatCalls : List Event → List (ChatMessage × GoString)
  | [] => []
  | Event.synoSendMessage msg token :: es => (msg, token) :: chatCalls es
  | _ :: es => chatCalls es

/-- The result of running the handler once. -/
structure Outcome (σ : Type) where
  w : ResponseWriter
  trace : List Event
  world : σ

/-- The statement `defer r.Body.Close()`: the body is closed when the handler
returns, after everything the rest of the handler did. -/
def deferBodyClose {σ : Type} (rest : Outcome σ) : Outcome σ :=
  { rest with trace := rest.trace ++ [Event.bodyClose] }

/-! ## The handler (`claude.go`, lines 58-103) -/

/-- The closure registered for `/webhook`. Its free variables `outgoingToken`,
`synoClient` and `anthropicClient` are parameters; `jsonUnmarshal body p` is
`json.Unmarshal(body, &p)`, returning the error and the updated `p`. -/
def webhookHandler {σ : Type}
    (jsonUnmarshal : GoString → WebhookPayload → Option GoError × WebhookPayload)
    (outgoingToken : GoString) (synoClient : SynoClient σ)
    (anthropicClient : AnthropicClient σ)
    (w : ResponseWriter) (r : Request) (s : σ) : Outcome σ :=
  if r.Method ≠ MethodPost then
    { w := httpError w (goStr "Method not allowed") StatusMethodNotAllowed,
      trace := [], world := s }
  else
    match r.Body.readAll with
    | (_, some _) =>
      { w := httpError w (goStr "Failed to read request body") StatusBadRequest,
        trace := [], world := s }
    | (body, none) =>
      deferBodyClose <|
        match jsonUnmarshal body WebhookPayload.zero with
        | (some _, _) =>
          { w := httpError w (goStr "Failed to parse JSON payload") StatusBadRequest,
            trace := [], world := s }
        | (none, payload) =>
          if payload.Token ≠ outgoingToken then
            { w := httpError w (goStr "Invalid token") StatusUnauthorized,
              trace := [], world := s }
          else
            match anthropicClient.SendMessage payload.Text s with
            | ((_, some err), s1) =>
              { w := httpError w (goStr "Failed to process message") StatusInternalServerError,
                trace := [Event.anthropicSendMessage payload.Text,
                          Event.logPrintf (goStr "Failed to get response from Anthropic: " ++ err.msg)],
                world := s1 }
            | ((anthropicResponse, none), s1) =>
              match synoClient.SendMessage { Text := anthropicResponse } outgoingToken s1 with
              | (some err, s2) =>
                { w := httpError w (goStr "Failed to send response") StatusInternalServerError,
                  trace := [Event.anthropicSendMessage payload.Text,
                            Event.synoSendMessage { Text := anthropicResponse } outgoingToken,
                            Event.logPrintf (goStr "Failed to send message to Synology Chat: " ++ err.msg)],
                  world := s2 }
              | (none, s2) =>
                { w := w.WriteHeader StatusOK,
                  trace := [Event.anthropicSendMessage payload.Text,
                            Event.synoSendMessage { Text := anthropicResponse } outgoingToken],
                  world := s2 }

/-! ## Start-up (`claude.go`, lines 27-56 and 105-114) -/

/-- The library functions `main` calls before serving. -/
structure Libs (σ : Type) where
  /-- The call `os.Getenv(key)`: the value, empty when the variable is unset. -/
  getenv : GoString → GoString
  /-- The call `synochat.NewClient(baseURL)`. -/
  synochatNewClient : GoString → Except GoError (SynoClient σ)
  /-- The call `anthropic.NewClient(apiKey, model)`. -/
  anthropicNewClient : GoString → GoString → AnthropicClient σ
  /-- The call `json.Unmarshal(body, &payload)`. -/
  jsonUnmarshal : GoString → WebhookPayload → Option GoError × WebhookPayload

/-- How far `main` gets: it stops in `log.Fatal`, or it registers a handler for a
pattern and calls `http.ListenAndServe` on an address. -/
inductive Startup (σ : Type) where
  | fatal (line : GoString)
  | serving (pattern : GoString) (handler : ResponseWriter → Request → σ → Outcome σ)
      (addr : GoString)

/-- The function `main` up to and including the call of `http.ListenAndServe`. -/
def main {σ : Type} (libs : Libs σ) : Startup σ :=
  let baseURL := libs.getenv (goStr "SYNOLOGY_CHAT_BASE_URL")
  if baseURL = [] then
    Startup.fatal (goStr "SYNOLOGY_CHAT_BASE_URL environment variable is not set")
  else
    let outgoingToken := libs.getenv (goStr "SYNOLOGY_CHAT_OUTGOING_TOKEN")
    if outgoingToken = [] then
      Startup.fatal (goStr "SYNOLOGY_CHAT_OUTGOING_TOKEN environment variable is not set")
    else
      match libs.synochatNewClient baseURL with
      | Except.error err =>
        Startup.fatal (goStr "Failed to create Synology Chat client: " ++ err.msg)
      | Except.ok synoClient =>
        let anthropicAPIKey := libs.getenv (goStr "ANTHROPIC_API_KEY")
        if anthropicAPIKey = [] then
          Startup.fatal (goStr "ANTHROPIC_API_KEY environment variable is not set")
        else
          let anthropicModel := libs.getenv (goStr "ANTHROPIC_MODEL")
          let anthropicModel :=
            if anthropicModel = [] then goStr "claude-3-5-sonnet-20240620" else anthropicModel
          let anthropicClient := libs.anthropicNewClient anthropicAPIKey anthropicModel
          let port := libs.getenv (goStr "PORT")
          let port := if port = [] then goStr "8080" else port
          Startup.serving (goStr "/webhook")
            (webhookHandler libs.jsonUnmarshal outgoingToken synoClient anthropicClient)
            (goStr ":" ++ port)

/-! ## Test doubles

Concrete stand-ins for the external parts, used to run the handler on the
scenarios of the specification. The outside world is a counter of the outbound
requests that reached it. -/

/-- The body of the successful scenario. -/
def bodyHello : GoString := goStr "\x7b\"token\":\"T\",\"text\":\"hello\"\x7d"

/-- The body of the wrong-token scenario. -/
def bodyWrong : GoString := goStr "\x7b\"token\":\"WRONG\",\"text\":\"hello\"\x7d"

/-- The body of the successful scenario with metadata fields added. -/
def bodyHelloMeta : GoString :=
  goStr "\x7b\"token\":\"T\",\"text\":\"hello\",\"username\":\"ann\",\"post_id\":\"42\"\x7d"

/-- A body that is not JSON. -/
def bodyNotJSON : GoString := goStr "not json"

/-- The empty JSON object. -/
def bodyEmptyObject : GoString := goStr "\x7b\x7d"

/-- The JSON literal null. -/
def bodyNull : GoString := goStr "null"

/-- The payload the successful scenario's body decodes to. -/
def payloadHello : WebhookPayload :=
  { WebhookPayload.zero with Token := goStr "T", Text := goStr "hello" }

/-- The payload the wrong-token scenario's body decodes to. -/
def payloadWrong : WebhookPayload :=
  { WebhookPayload.zero with Token := goStr "WRONG", Text := goStr "hello" }

/-- The payload the body with metadata decodes to. -/
def payloadHelloMeta : WebhookPayload :=
  { WebhookPayload.zero with Token := goStr "T", Text := goStr "hello",
                             Username := goStr "ann", PostID := goStr "42" }

/-- A table-driven stand-in for `json.Unmarshal` on the bodies above: it sets the
fields the body names, leaves the others as they are, and rejects every body
that is not in the table (the library accepts many more). -/
def scenarioUnmarshal (body : GoString) (p : WebhookPayload) :
    Option GoError × WebhookPayload :=
  if body = bodyHello then
    (none, { p with Token := goStr "T", Text := goStr "hello" })
  else if body = bodyWrong then
    (none, { p with Token := goStr "WRONG", Text := goStr "hello" })
  else if body = bodyHelloMeta then
    (none, { p with Token := goStr "T", Text := goStr "hello",
                    Username := goStr "ann", PostID := goStr "42" })
  else if body = bodyEmptyObject ∨ body = bodyNull then
    (none, p)
  else
    (some { msg := goStr "invalid character" }, p)

/-- An AI client that answers every text with the same reply. -/
def replyingAI : AnthropicClient Nat :=
  { SendMessage := fun _ n => ((goStr "hi there", none), n + 1) }

/-- An AI client that always fails. -/
def failingAI : AnthropicClient Nat :=
  { SendMessage := fun _ n => (([], some { msg := goStr "overloaded" }), n + 1) }

/-- A chat client that accepts every message. -/
def acceptingChat : SynoClient Nat :=
  { SendMessage := fun _ _ n => (none, n + 1) }

/-- A chat client that always fails. -/
def failingChat : SynoClient Nat :=
  { SendMessage := fun _ _ n => (some { msg := goStr "refused" }, n + 1) }

/-- A POST request whose body reads without error as the given bytes. -/
def postRequest (body : GoString) : Request :=
  { Method := MethodPost, Body := { readAll := (body, none) } }

/-! ## Rejections -/

/-- C2. A request whose method is not POST is answered with status 405 and
reaches neither external client, whatever its body, the token it carries, the
configured secret and the decoder are; the outside world is left as it was. -/
theorem webhook_method_not_post {σ : Type}
    (jsonUnmarshal : GoString → WebhookPayload → Option GoError × WebhookPayload)
    (outgoingToken : GoString) (synoClient : SynoClient σ)
    (anthropicClient : AnthropicClient σ) (r : Request) (s : σ)
    (hmethod : r.Method ≠ MethodPost) :
    (webhookHandler jsonUnmarshal outgoingToken synoClient anthropicClient
        ResponseWriter.fresh r s).w.status = some 405 ∧
    aiCalls (webhookHandler jsonUnmarshal outgoingToken synoClient anthropicClient
        ResponseWriter.fresh r s).trace = [] ∧
    chatCalls (webhookHandler jsonUnmarshal outgoingToken synoClient anthropicClient
        ResponseWriter.fresh r s).trace = [] ∧
    (webhookHandler jsonUnmarshal outgoingToken synoClient anthropicClient
        ResponseWriter.fresh r s).world = s := by
  simp [webhookHandler, hmethod, httpError, ResponseWriter.Write, ResponseWriter.WriteHeader,
    ResponseWriter.fresh, StatusMethodNotAllowed, aiCalls, chatCalls]

/-- C2, run on a GET request that carries the right token: 405, nothing called. -/
theorem webhook_method_not_post_witness :
    ({ Method := goStr "GET", Body := { readAll := (bodyHello, none) } } : Request).Method
        ≠ MethodPost ∧
    ((webhookHandler scenarioUnmarshal (goStr "T") acceptingChat replyingAI
        ResponseWriter.fresh
        { Method := goStr "GET", Body := { readAll := (bodyHello, none) } } 0).w.status
        = some 405 ∧
    aiCalls (webhookHandler scenarioUnmarshal (goStr "T") acceptingChat replyingAI
        ResponseWriter.fresh
        { Method := goStr "GET", Body := { readAll := (bodyHello, none) } } 0).trace = [] ∧
    chatCalls (webhookHandler scenarioUnmarshal (goStr "T") acceptingChat replyingAI
        ResponseWriter.fresh
        { Method := goStr "GET", Body := { readAll := (bodyHello, none) } } 0).trace = [] ∧
    (webhookHandler scenarioUnmarshal (goStr "T") acceptingChat replyingAI
        ResponseWriter.fresh
        { Method := goStr "GET", Body := { readAll := (bodyHello, none) } } 0).world = 0) :=
  ⟨by decide,
   webhook_method_not_post scenarioUnmarshal (goStr "T") acceptingChat replyingAI
     { Method := goStr "GET", Body := { readAll := (bodyHello, none) } } 0 (by decide)⟩

/-- C3. A POST request whose body cannot be read, or whose body is read but is
rejected by the decoder, is answered with status 400 and reaches neither
external client, whatever the configured secret is; the outside world is left
as it was. -/
theorem webhook_unparseable_body {σ : Type}
    (jsonUnmarshal : GoString → WebhookPayload → Option GoError × WebhookPayload)
    (outgoingToken : GoString) (synoClient : SynoClient σ)
    (anthropicClient : AnthropicClient σ) (r : Request) (s : σ)
    (hmethod : r.Method = MethodPost)
    (hbad : r.Body.readAll.2 ≠ none ∨
      (jsonUnmarshal r.Body.readAll.1 WebhookPayload.zero).1 ≠ none) :
    (webhookHandler jsonUnmarshal outgoingToken synoClient anthropicClient
        ResponseWriter.fresh r s).w.status = some 400 ∧
    aiCalls (webhookHandler jsonUnmarshal outgoingToken synoClient anthropicClient
        ResponseWriter.fresh r s).trace = [] ∧
    chatCalls (webhookHandler jsonUnmarshal outgoingToken synoClient anthropicClient
        ResponseWriter.fresh r s).trace = [] ∧
    (webhookHandler jsonUnmarshal outgoingToken synoClient anthropicClient
        ResponseWriter.fresh r s).world = s := by
  unfold webhookHandler
  rw [if_neg (not_not.mpr hmethod)]
  rcases hrd : r.Body.readAll with ⟨body, _ | rerr⟩
  · rcases hdec : jsonUnmarshal body WebhookPayload.zero with ⟨_ | derr, payload⟩
    · rw [hrd] at hbad
      simp [hdec] at hbad
    · simp [hdec, deferBodyClose, httpError, ResponseWriter.Write,
        ResponseWriter.WriteHeader, ResponseWriter.fresh, StatusBadRequest, aiCalls, chatCalls]
  · simp [httpError, ResponseWriter.Write, ResponseWriter.WriteHeader,
      ResponseWriter.fresh, StatusBadRequest, aiCalls, chatCalls]

/-- C3, run on the body "not json" with the right secret configured: 400. -/
theorem webhook_unparseable_body_witness :
    (postRequest bodyNotJSON).Method = MethodPost ∧
    ((postRequest bodyNotJSON).Body.readAll.2 ≠ none ∨
      (scenarioUnmarshal (postRequest bodyNotJSON).Body.readAll.1 WebhookPayload.zero).1
        ≠ none) ∧
    ((webhookHandler scenarioUnmarshal (goStr "T") acceptingChat replyingAI
        ResponseWriter.fresh (postRequest bodyNotJSON) 0).w.status = some 400 ∧
    aiCalls (webhookHandler scenarioUnmarshal (goStr "T") acceptingChat replyingAI
        ResponseWriter.fresh (postRequest bodyNotJSON) 0).trace = [] ∧
    chatCalls (webhookHandler scenarioUnmarshal (goStr "T") acceptingChat replyingAI
        ResponseWriter.fresh (postRequest bodyNotJSON) 0).trace = [] ∧
    (webhookHandler scenarioUnmarshal (goStr "T") acceptingChat replyingAI
        ResponseWriter.fresh (postRequest bodyNotJSON) 0).world = 0) :=
  ⟨rfl, by decide,
   webhook_unparseable_body scenarioUnmarshal (goStr "T") acceptingChat replyingAI
     (postRequest bodyNotJSON) 0 rfl (by decide)⟩

/-- C1. A POST request whose body is read and decodes to a payload whose token
differs from the configured secret is answered with status 401 and reaches
neither external client, whatever the clients would do; the outside world is
left as it was. -/
theorem webhook_token_mismatch {σ : Type}
    (jsonUnmarshal : GoString → WebhookPayload → Option GoError × WebhookPayload)
    (outgoingToken : GoString) (synoClient : SynoClient σ)
    (anthropicClient : AnthropicClient σ) (r : Request) (s : σ)
    (body : GoString) (payload : WebhookPayload)
    (hmethod : r.Method = MethodPost)
    (hread : r.Body.readAll = (body, none))
    (hdecode : jsonUnmarshal body WebhookPayload.zero = (none, payload))
    (htoken : payload.Token ≠ outgoingToken) :
    (webhookHandler jsonUnmarshal outgoingToken synoClient anthropicClient
        ResponseWriter.fresh r s).w.status = some 401 ∧
    aiCalls (webhookHandler jsonUnmarshal outgoingToken synoClient anthropicClient
        ResponseWriter.fresh r s).trace = [] ∧
    chatCalls (webhookHandler jsonUnmarshal outgoingToken synoClient anthropicClient
        ResponseWriter.fresh r s).trace = [] ∧
    (webhookHandler jsonUnmarshal outgoingToken synoClient anthropicClient
        ResponseWriter.fresh r s).world = s := by
  simp [webhookHandler, hmethod, hread, hdecode, htoken, deferBodyClose, httpError,
    ResponseWriter.Write, ResponseWriter.WriteHeader, ResponseWriter.fresh,
    StatusUnauthorized, aiCalls, chatCalls]

/-- C1, run on the wrong-token scenario (token "WRONG", secret "T"): 401, nothing called. -/
theorem webhook_token_mismatch_witness :
    (postRequest bodyWrong).Method = MethodPost ∧
    (postRequest bodyWrong).Body.readAll = (bodyWrong, none) ∧
    scenarioUnmarshal bodyWrong WebhookPayload.zero =
      (none, payloadWrong) ∧
    payloadWrong.Token ≠ goStr "T" ∧
    ((webhookHandler scenarioUnmarshal (goStr "T") acceptingChat replyingAI
        ResponseWriter.fresh (postRequest bodyWrong) 0).w.status = some 401 ∧
    aiCalls (webhookHandler scenarioUnmarshal (goStr "T") acceptingChat replyingAI
        ResponseWriter.fresh (postRequest bodyWrong) 0).trace = [] ∧
    chatCalls (webhookHandler scenarioUnmarshal (goStr "T") acceptingChat replyingAI
        ResponseWriter.fresh (postRequest bodyWrong) 0).trace = [] ∧
    (webhookHandler scenarioUnmarshal (goStr "T") acceptingChat replyingAI
        ResponseWriter.fresh (postRequest bodyWrong) 0).world = 0) :=
  ⟨rfl, rfl, by decide, by decide,
   webhook_token_mismatch scenarioUnmarshal (goStr "T") acceptingChat replyingAI
     (postRequest bodyWrong) 0 bodyWrong
     payloadWrong
     rfl rfl (by decide) (by decide)⟩

/-! ## Validated requests -/

/-- What the handler does once the method, the body and the token have been
accepted: the two outbound calls, inside the deferred close of the body. -/
theorem webhookHandler_validated {σ : Type}
    (jsonUnmarshal : GoString → WebhookPayload → Option GoError × WebhookPayload)
    (outgoingToken : GoString) (synoClient : SynoClient σ)
    (anthropicClient : AnthropicClient σ) (w : ResponseWriter) (r : Request) (s : σ)
    (body : GoString) (payload : WebhookPayload)
    (hmethod : r.Method = MethodPost)
    (hread : r.Body.readAll = (body, none))
    (hdecode : jsonUnmarshal body WebhookPayload.zero = (none, payload))
    (htoken : payload.Token = outgoingToken) :
    webhookHandler jsonUnmarshal outgoingToken synoClient anthropicClient w r s =
      deferBodyClose
        (match anthropicClient.SendMessage payload.Text s with
         | ((_, some err), s1) =>
           { w := httpError w (goStr "Failed to process message") StatusInternalServerError,
             trace := [Event.anthropicSendMessage payload.Text,
                       Event.logPrintf (goStr "Failed to get response from Anthropic: " ++ err.msg)],
             world := s1 }
         | ((anthropicResponse, none), s1) =>
           match synoClient.SendMessage { Text := anthropicResponse } outgoingToken s1 with
           | (some err, s2) =>
             { w := httpError w (goStr "Failed to send response") StatusInternalServerError,
               trace := [Event.anthropicSendMessage payload.Text,
                         Event.synoSendMessage { Text := anthropicResponse } outgoingToken,
                         Event.logPrintf (goStr "Failed to send message to Synology Chat: " ++ err.msg)],
               world := s2 }
           | (none, s2) =>
             { w := w.WriteHeader StatusOK,
               trace := [Event.anthropicSendMessage payload.Text,
                         Event.synoSendMessage { Text := anthropicResponse } outgoingToken],
               world := s2 }) := by
  simp [webhookHandler, hmethod, hread, hdecode, htoken]

/-- C4. For a POST request whose body decodes to a payload carrying the
configured secret, the calls to the AI client are exactly one call, whose
argument is the payload's text as decoded, whatever the two clients answer.
The call is a real one: the client is applied once to that text in the initial
world, and the final world is the one this application left (when it returned
an error) or the one the chat call made after it left (when it did not), so
the AI client's effect on the outside is there exactly once. -/
theorem webhook_ai_called_once_with_text {σ : Type}
    (jsonUnmarshal : GoString → WebhookPayload → Option GoError × WebhookPayload)
    (outgoingToken : GoString) (synoClient : SynoClient σ)
    (anthropicClient : AnthropicClient σ) (r : Request) (s : σ)
    (body : GoString) (payload : WebhookPayload)
    (hmethod : r.Method = MethodPost)
    (hread : r.Body.readAll = (body, none))
    (hdecode : jsonUnmarshal body WebhookPayload.zero = (none, payload))
    (htoken : payload.Token = outgoingToken) :
    aiCalls (webhookHandler jsonUnmarshal outgoingToken synoClient anthropicClient
        ResponseWriter.fresh r s).trace = [payload.Text] ∧
    (webhookHandler jsonUnmarshal outgoingToken synoClient anthropicClient
        ResponseWriter.fresh r s).world
      = (if (anthropicClient.SendMessage payload.Text s).1.2 = none then
           (synoClient.SendMessage
              { Text := (anthropicClient.SendMessage payload.Text s).1.1 } outgoingToken
              (anthropicClient.SendMessage payload.Text s).2).2
         else (anthropicClient.SendMessage payload.Text s).2) ∧
    ((anthropicClient.SendMessage payload.Text s).1.2 ≠ none →
      (webhookHandler jsonUnmarshal outgoingToken synoClient anthropicClient
          ResponseWriter.fresh r s).w.status = some 500) := by
  rw [webhookHandler_validated jsonUnmarshal outgoingToken synoClient anthropicClient
    ResponseWriter.fresh r s body payload hmethod hread hdecode htoken]
  rcases hai : anthropicClient.SendMessage payload.Text s with ⟨⟨reply, _ | aerr⟩, s1⟩
  · rcases hchat : synoClient.SendMessage { Text := reply } outgoingToken s1 with ⟨_ | cerr, s2⟩
    · simp [hchat, deferBodyClose, aiCalls]
    · simp [hchat, deferBodyClose, aiCalls]
  · simp [deferBodyClose, aiCalls, httpError, ResponseWriter.Write,
      ResponseWriter.WriteHeader, ResponseWriter.fresh, StatusInternalServerError]

/-- C4, run on the successful scenario with a failing chat client: the AI client
is called once, with the text "hello", and the world has seen the AI request
and the chat request after it. -/
theorem webhook_ai_called_once_with_text_witness :
    (postRequest bodyHello).Method = MethodPost ∧
    (postRequest bodyHello).Body.readAll = (bodyHello, none) ∧
    scenarioUnmarshal bodyHello WebhookPayload.zero =
      (none, payloadHello) ∧
    payloadHello.Token = goStr "T" ∧
    aiCalls (webhookHandler scenarioUnmarshal (goStr "T") failingChat replyingAI
        ResponseWriter.fresh (postRequest bodyHello) 0).trace = [goStr "hello"] ∧
    (webhookHandler scenarioUnmarshal (goStr "T") failingChat replyingAI
        ResponseWriter.fresh (postRequest bodyHello) 0).world = 2 :=
  ⟨rfl, rfl, by decide, by decide,
   (webhook_ai_called_once_with_text scenarioUnmarshal (goStr "T") failingChat replyingAI
     (postRequest bodyHello) 0 bodyHello
     payloadHello
     rfl rfl (by decide) (by decide)).1,
   (webhook_ai_called_once_with_text scenarioUnmarshal (goStr "T") failingChat replyingAI
     (postRequest bodyHello) 0 bodyHello
     payloadHello
     rfl rfl (by decide) (by decide)).2.1⟩

/-- C5. For a validated request, if the AI client returns an error the response
status is 500, the chat client is not called, the AI client has been called
once and no more, and the outside world is what that one call left. -/
theorem webhook_ai_failure {σ : Type}
    (jsonUnmarshal : GoString → WebhookPayload → Option GoError × WebhookPayload)
    (outgoingToken : GoString) (synoClient : SynoClient σ)
    (anthropicClient : AnthropicClient σ) (r : Request) (s : σ)
    (body : GoString) (payload : WebhookPayload) (err : GoError)
    (hmethod : r.Method = MethodPost)
    (hread : r.Body.readAll = (body, none))
    (hdecode : jsonUnmarshal body WebhookPayload.zero = (none, payload))
    (htoken : payload.Token = outgoingToken)
    (hai : (anthropicClient.SendMessage payload.Text s).1.2 = some err) :
    (webhookHandler jsonUnmarshal outgoingToken synoClient anthropicClient
        ResponseWriter.fresh r s).w.status = some 500 ∧
    chatCalls (webhookHandler jsonUnmarshal outgoingToken synoClient anthropicClient
        ResponseWriter.fresh r s).trace = [] ∧
    (aiCalls (webhookHandler jsonUnmarshal outgoingToken synoClient anthropicClient
        ResponseWriter.fresh r s).trace).length = 1 ∧
    (webhookHandler jsonUnmarshal outgoingToken synoClient anthropicClient
        ResponseWriter.fresh r s).world = (anthropicClient.SendMessage payload.Text s).2 := by
  rw [webhookHandler_validated jsonUnmarshal outgoingToken synoClient anthropicClient
    ResponseWriter.fresh r s body payload hmethod hread hdecode htoken]
  rcases hres : anthropicClient.SendMessage payload.Text s with ⟨⟨reply, _ | aerr⟩, s1⟩
  · rw [hres] at hai
    simp at hai
  · simp [deferBodyClose, httpError, ResponseWriter.Write, ResponseWriter.WriteHeader,
      ResponseWriter.fresh, StatusInternalServerError, aiCalls, chatCalls]

/-- C5, run on the successful scenario's request with a failing AI client: 500,
no chat call, one AI call, one outbound request in all. -/
theorem webhook_ai_failure_witness :
    (postRequest bodyHello).Method = MethodPost ∧
    (postRequest bodyHello).Body.readAll = (bodyHello, none) ∧
    scenarioUnmarshal bodyHello WebhookPayload.zero =
      (none, payloadHello) ∧
    payloadHello.Token = goStr "T" ∧
    (failingAI.SendMessage payloadHello.Text 0).1.2
      = some { msg := goStr "overloaded" } ∧
    ((webhookHandler scenarioUnmarshal (goStr "T") acceptingChat failingAI
        ResponseWriter.fresh (postRequest bodyHello) 0).w.status = some 500 ∧
    chatCalls (webhookHandler scenarioUnmarshal (goStr "T") acceptingChat failingAI
        ResponseWriter.fresh (postRequest bodyHello) 0).trace = [] ∧
    (aiCalls (webhookHandler scenarioUnmarshal (goStr "T") acceptingChat failingAI
        ResponseWriter.fresh (postRequest bodyHello) 0).trace).length = 1 ∧
    (webhookHandler scenarioUnmarshal (goStr "T") acceptingChat failingAI
        ResponseWriter.fresh (postRequest bodyHello) 0).world
      = (failingAI.SendMessage payloadHello.Text 0).2) :=
  ⟨rfl, rfl, by decide, by decide, rfl,
   webhook_ai_failure scenarioUnmarshal (goStr "T") acceptingChat failingAI
     (postRequest bodyHello) 0 bodyHello
     payloadHello
     { msg := goStr "overloaded" } rfl rfl (by decide) (by decide) rfl⟩

/-- C6. For a validated request to which the AI client answers `reply` without
error, the calls to the chat client are exactly one call: its message has
`reply` as text and its token argument is the configured secret, which is the
token the payload carried. The chat client runs in the world the AI call left. -/
theorem webhook_chat_called_once_with_reply {σ : Type}
    (jsonUnmarshal : GoString → WebhookPayload → Option GoError × WebhookPayload)
    (outgoingToken : GoString) (synoClient : SynoClient σ)
    (anthropicClient : AnthropicClient σ) (r : Request) (s s1 : σ)
    (body : GoString) (payload : WebhookPayload) (reply : GoString)
    (hmethod : r.Method = MethodPost)
    (hread : r.Body.readAll = (body, none))
    (hdecode : jsonUnmarshal body WebhookPayload.zero = (none, payload))
    (htoken : payload.Token = outgoingToken)
    (hai : anthropicClient.SendMessage payload.Text s = ((reply, none), s1)) :
    chatCalls (webhookHandler jsonUnmarshal outgoingToken synoClient anthropicClient
        ResponseWriter.fresh r s).trace = [({ Text := reply }, outgoingToken)] ∧
    outgoingToken = payload.Token ∧
    (webhookHandler jsonUnmarshal outgoingToken synoClient anthropicClient
        ResponseWriter.fresh r s).world
      = (synoClient.SendMessage { Text := reply } outgoingToken s1).2 := by
  rw [webhookHandler_validated jsonUnmarshal outgoingToken synoClient anthropicClient
    ResponseWriter.fresh r s body payload hmethod hread hdecode htoken, hai]
  rcases hchat : synoClient.SendMessage { Text := reply } outgoingToken s1 with ⟨_ | cerr, s2⟩
  · simp [hchat, deferBodyClose, chatCalls, htoken]
  · simp [hchat, deferBodyClose, chatCalls, htoken]

/-- C6, run on the successful scenario: the chat client receives one message,
with text "hi there" and token "T". -/
theorem webhook_chat_called_once_with_reply_witness :
    (postRequest bodyHello).Method = MethodPost ∧
    (postRequest bodyHello).Body.readAll = (bodyHello, none) ∧
    scenarioUnmarshal bodyHello WebhookPayload.zero = (none, payloadHello) ∧
    payloadHello.Token = goStr "T" ∧
    replyingAI.SendMessage payloadHello.Text 0 = ((goStr "hi there", none), 1) ∧
    (chatCalls (webhookHandler scenarioUnmarshal (goStr "T") acceptingChat replyingAI
        ResponseWriter.fresh (postRequest bodyHello) 0).trace
      = [({ Text := goStr "hi there" }, goStr "T")] ∧
    goStr "T" = payloadHello.Token ∧
    (webhookHandler scenarioUnmarshal (goStr "T") acceptingChat replyingAI
        ResponseWriter.fresh (postRequest bodyHello) 0).world
      = (acceptingChat.SendMessage { Text := goStr "hi there" } (goStr "T") 1).2) :=
  ⟨rfl, rfl, by decide, by decide, rfl,
   webhook_chat_called_once_with_reply scenarioUnmarshal (goStr "T") acceptingChat replyingAI
     (postRequest bodyHello) 0 1 bodyHello payloadHello (goStr "hi there")
     rfl rfl (by decide) (by decide) rfl⟩

/-- C7. For a validated request to which the AI client answers `reply` without
error, the response follows the chat call: when that call returns no error the
status is 200 and the body is empty, and when it returns an error the status
is 500. -/
theorem webhook_response_follows_chat {σ : Type}
    (jsonUnmarshal : GoString → WebhookPayload → Option GoError × WebhookPayload)
    (outgoingToken : GoString) (synoClient : SynoClient σ)
    (anthropicClient : AnthropicClient σ) (r : Request) (s s1 : σ)
    (body : GoString) (payload : WebhookPayload) (reply : GoString)
    (hmethod : r.Method = MethodPost)
    (hread : r.Body.readAll = (body, none))
    (hdecode : jsonUnmarshal body WebhookPayload.zero = (none, payload))
    (htoken : payload.Token = outgoingToken)
    (hai : anthropicClient.SendMessage payload.Text s = ((reply, none), s1)) :
    ((synoClient.SendMessage { Text := reply } outgoingToken s1).1 = none →
      (webhookHandler jsonUnmarshal outgoingToken synoClient anthropicClient
          ResponseWriter.fresh r s).w.status = some 200 ∧
      (webhookHandler jsonUnmarshal outgoingToken synoClient anthropicClient
          ResponseWriter.fresh r s).w.body = []) ∧
    ((synoClient.SendMessage { Text := reply } outgoingToken s1).1 ≠ none →
      (webhookHandler jsonUnmarshal outgoingToken synoClient anthropicClient
          ResponseWriter.fresh r s).w.status = some 500) := by
  rw [webhookHandler_validated jsonUnmarshal outgoingToken synoClient anthropicClient
    ResponseWriter.fresh r s body payload hmethod hread hdecode htoken, hai]
  rcases hchat : synoClient.SendMessage { Text := reply } outgoingToken s1 with ⟨_ | cerr, s2⟩
  · simp [hchat, deferBodyClose, ResponseWriter.WriteHeader, ResponseWriter.fresh, StatusOK]
  · simp [hchat, deferBodyClose, httpError, ResponseWriter.Write, ResponseWriter.WriteHeader,
      ResponseWriter.fresh, StatusInternalServerError]

/-- C7, run on the successful scenario, where the chat call succeeds: the
response is 200 with an empty body. -/
theorem webhook_response_follows_chat_witness :
    (postRequest bodyHello).Method = MethodPost ∧
    (postRequest bodyHello).Body.readAll = (bodyHello, none) ∧
    scenarioUnmarshal bodyHello WebhookPayload.zero = (none, payloadHello) ∧
    payloadHello.Token = goStr "T" ∧
    replyingAI.SendMessage payloadHello.Text 0 = ((goStr "hi there", none), 1) ∧
    (acceptingChat.SendMessage { Text := goStr "hi there" } (goStr "T") 1).1 = none ∧
    (webhookHandler scenarioUnmarshal (goStr "T") acceptingChat replyingAI
        ResponseWriter.fresh (postRequest bodyHello) 0).w.status = some 200 ∧
    (webhookHandler scenarioUnmarshal (goStr "T") acceptingChat replyingAI
        ResponseWriter.fresh (postRequest bodyHello) 0).w.body = [] :=
  ⟨rfl, rfl, by decide, by decide, rfl, rfl,
   (webhook_response_follows_chat scenarioUnmarshal (goStr "T") acceptingChat replyingAI
     (postRequest bodyHello) 0 1 bodyHello payloadHello (goStr "hi there")
     rfl rfl (by decide) (by decide) rfl).1 rfl⟩

/-! ## Number of outbound calls -/

/-- The events that are calls to one of the two external clients. -/
def Event.isOutbound : Event → Bool
  | Event.anthropicSendMessage _ => true
  | Event.synoSendMessage _ _ => true
  | _ => false

/-- C8 as stated fails. The successful scenario's request passes validation, but
with an AI client that fails the chat client is not called at all, so it is not
the case that each client is called exactly once. -/
theorem webhook_one_call_each_counterexample :
    (postRequest bodyHello).Method = MethodPost ∧
    (postRequest bodyHello).Body.readAll = (bodyHello, none) ∧
    scenarioUnmarshal bodyHello WebhookPayload.zero = (none, payloadHello) ∧
    payloadHello.Token = goStr "T" ∧
    (chatCalls (webhookHandler scenarioUnmarshal (goStr "T") acceptingChat failingAI
        ResponseWriter.fresh (postRequest bodyHello) 0).trace).length = 0 ∧
    ¬ ((aiCalls (webhookHandler scenarioUnmarshal (goStr "T") acceptingChat failingAI
          ResponseWriter.fresh (postRequest bodyHello) 0).trace).length = 1 ∧
       (chatCalls (webhookHandler scenarioUnmarshal (goStr "T") acceptingChat failingAI
          ResponseWriter.fresh (postRequest bodyHello) 0).trace).length = 1) := by
  refine ⟨rfl, rfl, by decide, by decide, by decide, by decide⟩

/-- C8, amended. For a validated request the AI client is called exactly once;
the chat client is called exactly once when the AI call returned no error and
not at all when it returned one; the outbound calls are these and no others, the
AI call first; and the outside world is what these calls left. (The other
events of a trace are log lines and the closing of the request body.) -/
theorem webhook_outbound_calls {σ : Type}
    (jsonUnmarshal : GoString → WebhookPayload → Option GoError × WebhookPayload)
    (outgoingToken : GoString) (synoClient : SynoClient σ)
    (anthropicClient : AnthropicClient σ) (r : Request) (s : σ)
    (body : GoString) (payload : WebhookPayload)
    (hmethod : r.Method = MethodPost)
    (hread : r.Body.readAll = (body, none))
    (hdecode : jsonUnmarshal body WebhookPayload.zero = (none, payload))
    (htoken : payload.Token = outgoingToken) :
    (aiCalls (webhookHandler jsonUnmarshal outgoingToken synoClient anthropicClient
        ResponseWriter.fresh r s).trace).length = 1 ∧
    (chatCalls (webhookHandler jsonUnmarshal outgoingToken synoClient anthropicClient
        ResponseWriter.fresh r s).trace).length
      = (if (anthropicClient.SendMessage payload.Text s).1.2 = none then 1 else 0) ∧
    (webhookHandler jsonUnmarshal outgoingToken synoClient anthropicClient
        ResponseWriter.fresh r s).trace.filter Event.isOutbound
      = Event.anthropicSendMessage payload.Text ::
          (if (anthropicClient.SendMessage payload.Text s).1.2 = none then
             [Event.synoSendMessage
                { Text := (anthropicClient.SendMessage payload.Text s).1.1 } outgoingToken]
           else []) ∧
    (webhookHandler jsonUnmarshal outgoingToken synoClient anthropicClient
        ResponseWriter.fresh r s).world
      = (if (anthropicClient.SendMessage payload.Text s).1.2 = none then
           (synoClient.SendMessage
              { Text := (anthropicClient.SendMessage payload.Text s).1.1 } outgoingToken
              (anthropicClient.SendMessage payload.Text s).2).2
         else (anthropicClient.SendMessage payload.Text s).2) := by
  rw [webhookHandler_validated jsonUnmarshal outgoingToken synoClient anthropicClient
    ResponseWriter.fresh r s body payload hmethod hread hdecode htoken]
  rcases hai : anthropicClient.SendMessage payload.Text s with ⟨⟨reply, _ | aerr⟩, s1⟩
  · rcases hchat : synoClient.SendMessage { Text := reply } outgoingToken s1 with ⟨_ | cerr, s2⟩
    · simp [hchat, deferBodyClose, aiCalls, chatCalls, Event.isOutbound]
    · simp [hchat, deferBodyClose, aiCalls, chatCalls, Event.isOutbound]
  · simp [deferBodyClose, aiCalls, chatCalls, Event.isOutbound]

/-- C8 amended, run on the successful scenario: one AI call, one chat call, two
outbound requests in all. -/
theorem webhook_outbound_calls_witness :
    (postRequest bodyHello).Method = MethodPost ∧
    (postRequest bodyHello).Body.readAll = (bodyHello, none) ∧
    scenarioUnmarshal bodyHello WebhookPayload.zero = (none, payloadHello) ∧
    payloadHello.Token = goStr "T" ∧
    (aiCalls (webhookHandler scenarioUnmarshal (goStr "T") acceptingChat replyingAI
        ResponseWriter.fresh (postRequest bodyHello) 0).trace).length = 1 ∧
    (chatCalls (webhookHandler scenarioUnmarshal (goStr "T") acceptingChat replyingAI
        ResponseWriter.fresh (postRequest bodyHello) 0).trace).length = 1 ∧
    (webhookHandler scenarioUnmarshal (goStr "T") acceptingChat replyingAI
        ResponseWriter.fresh (postRequest bodyHello) 0).world = 2 :=
  ⟨rfl, rfl, by decide, by decide,
   (webhook_outbound_calls scenarioUnmarshal (goStr "T") acceptingChat replyingAI
     (postRequest bodyHello) 0 bodyHello payloadHello rfl rfl (by decide) (by decide)).1,
   (webhook_outbound_calls scenarioUnmarshal (goStr "T") acceptingChat replyingAI
     (postRequest bodyHello) 0 bodyHello payloadHello rfl rfl (by decide) (by decide)).2.1,
   (webhook_outbound_calls scenarioUnmarshal (goStr "T") acceptingChat replyingAI
     (postRequest bodyHello) 0 bodyHello payloadHello rfl rfl (by decide) (by decide)).2.2.2⟩

/-! ## Metadata fields -/

/-- C9. Two POST requests whose bodies decode to payloads with the same token
and the same text are indistinguishable to the handler, whatever the other
seven fields hold: with the same secret, the same clients and the same outside
world, the response (status and body), the trace of calls and log lines, and
the resulting world are the same. -/
theorem webhook_metadata_unused {σ : Type}
    (jsonUnmarshal : GoString → WebhookPayload → Option GoError × WebhookPayload)
    (outgoingToken : GoString) (synoClient : SynoClient σ)
    (anthropicClient : AnthropicClient σ) (r1 r2 : Request) (s : σ)
    (body1 body2 : GoString) (payload1 payload2 : WebhookPayload)
    (hmethod1 : r1.Method = MethodPost) (hmethod2 : r2.Method = MethodPost)
    (hread1 : r1.Body.readAll = (body1, none)) (hread2 : r2.Body.readAll = (body2, none))
    (hdecode1 : jsonUnmarshal body1 WebhookPayload.zero = (none, payload1))
    (hdecode2 : jsonUnmarshal body2 WebhookPayload.zero = (none, payload2))
    (htoken : payload1.Token = payload2.Token)
    (htext : payload1.Text = payload2.Text) :
    webhookHandler jsonUnmarshal outgoingToken synoClient anthropicClient
        ResponseWriter.fresh r1 s
      = webhookHandler jsonUnmarshal outgoingToken synoClient anthropicClient
        ResponseWriter.fresh r2 s := by
  simp [webhookHandler, hmethod1, hmethod2, hread1, hread2, hdecode1, hdecode2, htoken,
    htext]

/-- C9, run on the successful scenario's body and on the same body with a user
name and a post id added. -/
theorem webhook_metadata_unused_witness :
    (postRequest bodyHello).Method = MethodPost ∧
    (postRequest bodyHelloMeta).Method = MethodPost ∧
    (postRequest bodyHello).Body.readAll = (bodyHello, none) ∧
    (postRequest bodyHelloMeta).Body.readAll = (bodyHelloMeta, none) ∧
    scenarioUnmarshal bodyHello WebhookPayload.zero = (none, payloadHello) ∧
    scenarioUnmarshal bodyHelloMeta WebhookPayload.zero = (none, payloadHelloMeta) ∧
    payloadHello ≠ payloadHelloMeta ∧
    webhookHandler scenarioUnmarshal (goStr "T") acceptingChat replyingAI
        ResponseWriter.fresh (postRequest bodyHello) 0
      = webhookHandler scenarioUnmarshal (goStr "T") acceptingChat replyingAI
        ResponseWriter.fresh (postRequest bodyHelloMeta) 0 :=
  ⟨rfl, rfl, rfl, rfl, by decide, by decide, by decide,
   webhook_metadata_unused scenarioUnmarshal (goStr "T") acceptingChat replyingAI
     (postRequest bodyHello) (postRequest bodyHelloMeta) 0 bodyHello bodyHelloMeta
     payloadHello payloadHelloMeta rfl rfl rfl rfl (by decide) (by decide)
     (by decide) (by decide)⟩

/-! ## Start-up and the empty token -/

/-- An environment that sets the three required variables and nothing else. -/
def scenarioGetenv (key : GoString) : GoString :=
  if key = goStr "SYNOLOGY_CHAT_BASE_URL" then goStr "https://chat.example"
  else if key = goStr "SYNOLOGY_CHAT_OUTGOING_TOKEN" then goStr "T"
  else if key = goStr "ANTHROPIC_API_KEY" then goStr "k"
  else []

/-- The test doubles as the libraries `main` calls. -/
def scenarioLibs : Libs Nat :=
  { getenv := scenarioGetenv,
    synochatNewClient := fun _ => Except.ok acceptingChat,
    anthropicNewClient := fun _ _ => replyingAI,
    jsonUnmarshal := scenarioUnmarshal }

/-- A handler that `main` registers was built with a non-empty secret. -/
theorem main_serving_handler {σ : Type} (libs : Libs σ) (pattern addr : GoString)
    (handler : ResponseWriter → Request → σ → Outcome σ)
    (hmain : main libs = Startup.serving pattern handler addr) :
    ∃ (outgoingToken : GoString) (synoClient : SynoClient σ)
      (anthropicClient : AnthropicClient σ),
      outgoingToken ≠ [] ∧
      handler = webhookHandler libs.jsonUnmarshal outgoingToken synoClient anthropicClient := by
  unfold main at hmain
  simp only [] at hmain
  split at hmain
  · cases hmain
  · split at hmain
    · cases hmain
    · rename_i htok
      split at hmain
      · cases hmain
      · rename_i synoClient hclient
        split at hmain
        · cases hmain
        · injection hmain with hpat hhandler haddr
          exact ⟨_, synoClient, _, htok, hhandler.symm⟩

/-- C10. Whenever `main` gets as far as registering a handler (so the variable
SYNOLOGY_CHAT_OUTGOING_TOKEN was set to a non-empty value), that handler answers
every POST request whose body decodes to a payload with an empty token with
status 401, and reaches neither external client; the outside world is left as
it was. -/
theorem main_handler_rejects_empty_token {σ : Type} (libs : Libs σ)
    (pattern addr : GoString) (handler : ResponseWriter → Request → σ → Outcome σ)
    (r : Request) (s : σ) (body : GoString) (payload : WebhookPayload)
    (hmain : main libs = Startup.serving pattern handler addr)
    (hmethod : r.Method = MethodPost)
    (hread : r.Body.readAll = (body, none))
    (hdecode : libs.jsonUnmarshal body WebhookPayload.zero = (none, payload))
    (hempty : payload.Token = []) :
    (handler ResponseWriter.fresh r s).w.status = some 401 ∧
    aiCalls (handler ResponseWriter.fresh r s).trace = [] ∧
    chatCalls (handler ResponseWriter.fresh r s).trace = [] ∧
    (handler ResponseWriter.fresh r s).world = s := by
  obtain ⟨outgoingToken, synoClient, anthropicClient, hne, hhandler⟩ :=
    main_serving_handler libs pattern addr handler hmain
  subst hhandler
  have htoken : payload.Token ≠ outgoingToken := by
    rw [hempty]
    exact fun h => hne h.symm
  simp [webhookHandler, hmethod, hread, hdecode, htoken, deferBodyClose, httpError,
    ResponseWriter.Write, ResponseWriter.WriteHeader, ResponseWriter.fresh,
    StatusUnauthorized, aiCalls, chatCalls]

/-- C10, run on the test environment and the body that is the empty JSON object:
`main` registers the handler for "/webhook" with secret "T", and the request is
answered with 401 without any outbound call. -/
theorem main_handler_rejects_empty_token_witness :
    main scenarioLibs = Startup.serving (goStr "/webhook")
      (webhookHandler scenarioUnmarshal (goStr "T") acceptingChat replyingAI)
      (goStr ":8080") ∧
    (postRequest bodyEmptyObject).Method = MethodPost ∧
    (postRequest bodyEmptyObject).Body.readAll = (bodyEmptyObject, none) ∧
    scenarioLibs.jsonUnmarshal bodyEmptyObject WebhookPayload.zero
      = (none, WebhookPayload.zero) ∧
    WebhookPayload.zero.Token = [] ∧
    ((webhookHandler scenarioUnmarshal (goStr "T") acceptingChat replyingAI
        ResponseWriter.fresh (postRequest bodyEmptyObject) 0).w.status = some 401 ∧
    aiCalls (webhookHandler scenarioUnmarshal (goStr "T") acceptingChat replyingAI
        ResponseWriter.fresh (postRequest bodyEmptyObject) 0).trace = [] ∧
    chatCalls (webhookHandler scenarioUnmarshal (goStr "T") acceptingChat replyingAI
        ResponseWriter.fresh (postRequest bodyEmptyObject) 0).trace = [] ∧
    (webhookHandler scenarioUnmarshal (goStr "T") acceptingChat replyingAI
        ResponseWriter.fresh (postRequest bodyEmptyObject) 0).world = 0) :=
  ⟨rfl, rfl, rfl, by decide, rfl,
   main_handler_rejects_empty_token scenarioLibs (goStr "/webhook") (goStr ":8080")
     (webhookHandler scenarioUnmarshal (goStr "T") acceptingChat replyingAI)
     (postRequest bodyEmptyObject) 0 bodyEmptyObject WebhookPayload.zero
     rfl rfl rfl (by decide) rfl⟩

end ClaudeRelay
